import Mathlib

/-!
Verification development for the compass-ui chat front-end
(`src/app/page.tsx`).  The JavaScript string operations used by the page
(`trim`, `toLowerCase`, `split("\n")`, `slice`, `startsWith`, the regex
replacements of `stripDemo`) are embedded as executable functions over
`List Char`, and the response-extraction helpers, the card sanitizer and
the per-turn reconciliation of `send` / `onActionClick` / `openInsight` /
`showInsightsInChat` / the logout reset are embedded as pure functions,
with the event loop modelled as a step function over an explicit UI state.
-/

/-- JavaScript `String.prototype.trim`, over the characters of a string. -/
def jsTrim (s : String) : String :=
  String.mk (((s.data.dropWhile Char.isWhitespace).reverse.dropWhile
    Char.isWhitespace).reverse)

/-- JavaScript `String.prototype.toLowerCase` (ASCII range). -/
def jsToLower (s : String) : String :=
  String.mk (s.data.map Char.toLower)

/-- JavaScript `String.prototype.startsWith`. -/
def jsStartsWith (s pat : String) : Bool :=
  pat.data.isPrefixOf s.data

/-- JavaScript `String.prototype.slice(n)` (drop the first `n` units). -/
def jsSlice (s : String) (n : Nat) : String :=
  String.mk (s.data.drop n)

/-- Helper for `split("\n")`: cut a character list at every newline. -/
def splitNLAux : List Char → List Char → List (List Char)
  | [], acc => [acc.reverse]
  | c :: cs, acc =>
    if c = '\n' then acc.reverse :: splitNLAux cs []
    else splitNLAux cs (c :: acc)

/-- JavaScript `text.split("\n")`. -/
def jsSplitLines (s : String) : List String :=
  (splitNLAux s.data []).map String.mk

/-- JavaScript regex word character class (used for word bounds). -/
def isWordChar (c : Char) : Bool :=
  c.isAlphanum || c = '_'

/-- Case-insensitive match of a (lowercase) pattern at the head of the
input; returns the rest of the input after the pattern on success. -/
def matchCI : List Char → List Char → Option (List Char)
  | [], rest => some rest
  | _ :: _, [] => none
  | p :: ps, c :: cs => if c.toLower = p then matchCI ps cs else none

/-- Whether the last character of a pattern is a word character (the
scanner's notion of the character preceding the next position after a
removed match). -/
def patEndIsWord (pat : List Char) : Bool :=
  isWordChar (pat.getLastD ' ')

/-- One global, case-insensitive, left-to-right replacement-by-empty pass
of a fixed pattern, with optional word bounds on both sides, as performed
by the regex replacements in `stripDemo`.  `fuel` only bounds recursion
and is always at least the input length plus one. -/
def replacePatCore (bdry : Bool) (pat : List Char) :
    Nat → Bool → List Char → List Char
  | 0, _, l => l
  | _ + 1, _, [] => []
  | fuel + 1, prevW, c :: cs =>
    match (if bdry && prevW then none else matchCI pat (c :: cs)) with
    | some rest =>
      if !bdry || (match rest.head? with
          | some d => !isWordChar d
          | none => true) then
        replacePatCore bdry pat fuel (patEndIsWord pat) rest
      else
        c :: replacePatCore bdry pat fuel (isWordChar c) cs
    | none => c :: replacePatCore bdry pat fuel (isWordChar c) cs

/-- Global replacement-by-empty of a fixed pattern, case-insensitively,
with (`bdry = true`) or without word bounds. -/
def replacePat (bdry : Bool) (pat : String) (l : List Char) : List Char :=
  replacePatCore bdry pat.data (l.length + 1) false l

/-- Collapse every run of two or more whitespace characters into a single
space (one global pass of the whitespace-collapsing replacement). -/
def collapseWSCore : Nat → List Char → List Char
  | 0, l => l
  | _ + 1, [] => []
  | _ + 1, [c] => [c]
  | fuel + 1, c :: d :: rest =>
    if c.isWhitespace && d.isWhitespace then
      collapseWSCore fuel (' ' :: rest)
    else
      c :: collapseWSCore fuel (d :: rest)

/-- The cosmetic demo-stripping filter `stripDemo` of `page.tsx`: remove
"demo-safe" and "demo" at word bounds and the literal "(demo)", all
case-insensitively, collapse repeated whitespace, then trim. -/
def stripDemo (s : String) : String :=
  let l1 := replacePat true "demo-safe" s.data
  let l2 := replacePat false "(demo)" l1
  let l3 := replacePat true "demo" l2
  let l4 := collapseWSCore (l3.length + 1) l3
  jsTrim (String.mk l4)

/-- Message author role (`type Role`). -/
inductive Role where
  | user
  | assistant
deriving DecidableEq, Repr

/-- A chat message of a response payload (`type ChatMessage`). -/
structure ChatMessage where
  role : Role
  content : String
deriving DecidableEq, Repr

/-- An action offered by a card (`type CardAction`); the parameter bag is
opaque to the UI and modelled as an optional association list. -/
structure CardAction where
  id : Option String
  label : String
  action_name : Option String
  params : Option (List (String × String))
deriving DecidableEq, Repr

/-- A structured card (`type Card`). -/
structure Card where
  title : String
  subtitle : Option String
  body : Option String
  actions : Option (List CardAction)
deriving DecidableEq, Repr

/-- Chart data carried on the debug side channel (`type ChartsPayload`). -/
structure ChartsPayload where
  pie : Option (List (String × Int))
  trend : Option (List (String × Int))
deriving DecidableEq, Repr

/-- One step of the agent decision trace (`type AgentTraceStep`). -/
structure AgentTraceStep where
  stage : String
  agent : Option String
  tool : Option String
  reasoning : Option String
  decision : Option String
  result : Option String
deriving DecidableEq, Repr

/-- The `planner` part of `debug.agent_trace`. -/
structure PlannerInfo where
  decision : Option String
  reason : Option String
deriving DecidableEq, Repr

/-- The `delegate` part of `debug.agent_trace`. -/
structure DelegateInfo where
  agent : Option String
  capability : Option String
deriving DecidableEq, Repr

/-- The `act` part of `debug.agent_trace`. -/
structure ActInfo where
  result : Option String
  confidence : Option String
deriving DecidableEq, Repr

/-- The structured `debug.agent_trace` object. -/
structure AgentTrace where
  planner : Option PlannerInfo
  delegate : Option DelegateInfo
  act : Option ActInfo
deriving DecidableEq, Repr

/-- An insight summary from `debug.insights` (`type InsightItem`). -/
structure InsightItem where
  id : String
  title : String
  subtitle : Option String
deriving DecidableEq, Repr

/-- The debug side channel of a response. -/
structure Debug where
  charts : Option ChartsPayload
  agent_trace : Option AgentTrace
  trace : Option (List AgentTraceStep)
  insights : Option (List InsightItem)
deriving DecidableEq, Repr

/-- A response payload of `/orchestrate` or `/action`
(`OrchestrateResponse` / `ActionResponse`; the flat `trace` field is the
untyped top-level field read by `extractTraceIfAny`). -/
structure Response where
  messages : Option (List ChatMessage)
  card : Option Card
  debug : Option Debug
  trace : Option (List AgentTraceStep)
deriving DecidableEq, Repr

/-- One chat turn (`type Turn`). -/
structure Turn where
  id : String
  userText : String
  assistantText : Option String
  card : Option Card
  charts : Option ChartsPayload
  trace : Option (List AgentTraceStep)
  insightsList : Option (List InsightItem)
deriving DecidableEq, Repr

/-- The predicate of `extractAssistantText`'s `msgs.find(...)`: an
assistant-authored message whose trimmed content is non-empty. -/
def showableAssistant (m : ChatMessage) : Bool :=
  m.role == Role.assistant && !(jsTrim m.content == "")

/-- `extractAssistantText` of `page.tsx`: the first assistant message
with non-empty trimmed content (trimmed, demo-stripped), or the literal
fallback. -/
def extractAssistantText (data : Response) : String :=
  let msgs := data.messages.getD []
  match msgs.find? showableAssistant with
  | some m => stripDemo (jsTrim m.content)
  | none => "No response."

/-- The `debug.charts` field of a response, when present. -/
def debugCharts (data : Response) : Option ChartsPayload :=
  data.debug.bind Debug.charts

/-- `extractChartsIfAny` of `page.tsx`: charts are returned only when the
card title is exactly "Spend Analysis" and `debug.charts` is present. -/
def extractChartsIfAny (data : Response) (card : Option Card) :
    Option ChartsPayload :=
  let charts := debugCharts data
  if Option.map Card.title card = some "Spend Analysis" ∧ charts.isSome = true
  then charts else none

/-- The structured `debug.agent_trace` object of a response. -/
def agentTraceOf (data : Response) : Option AgentTrace :=
  data.debug.bind Debug.agent_trace

/-- The flat trace array: `debug.trace` if present (JavaScript `||` on an
array value), otherwise the top-level `trace` field. -/
def flatTraceOf (data : Response) : Option (List AgentTraceStep) :=
  match data.debug.bind Debug.trace with
  | some l => some l
  | none => data.trace

/-- The "Planner" step pushed by `extractTraceIfAny`. -/
def plannerStep (p : PlannerInfo) : AgentTraceStep :=
  { stage := "Planner", agent := some "Planner", tool := none,
    reasoning := p.reason.map stripDemo,
    decision := p.decision.map stripDemo, result := none }

/-- The "Delegate" step pushed by `extractTraceIfAny` (`agent || "Router"`
is JavaScript truthiness: an absent or empty agent becomes "Router", and
a decision is derived only from a non-empty capability). -/
def delegateStep (d : DelegateInfo) : AgentTraceStep :=
  { stage := "Delegate",
    agent := some (stripDemo (match d.agent with
      | some a => if a == "" then "Router" else a
      | none => "Router")),
    tool := d.capability.map stripDemo,
    reasoning := none,
    decision := match d.capability with
      | some c => if c == "" then none else some (stripDemo ("Route to " ++ c))
      | none => none,
    result := none }

/-- The "Act" step pushed by `extractTraceIfAny`. -/
def actStep (a : ActInfo) : AgentTraceStep :=
  { stage := "Act", agent := some "Executor", tool := none,
    reasoning := match a.confidence with
      | some c => if c == "" then none
                  else some (stripDemo ("Confidence: " ++ c))
      | none => none,
    decision := none,
    result := a.result.map stripDemo }

/-- The demo-stripping map applied to each step of a flat trace array. -/
def cleanStep (s : AgentTraceStep) : AgentTraceStep :=
  { stage := stripDemo s.stage, agent := s.agent.map stripDemo,
    tool := s.tool.map stripDemo, reasoning := s.reasoning.map stripDemo,
    decision := s.decision.map stripDemo, result := s.result.map stripDemo }

/-- The ordered step list built from a structured agent trace (Planner,
then Delegate, then Act, each only when its field is present). -/
def structuredSteps (a : AgentTrace) : List AgentTraceStep :=
  (match a.planner with | some p => [plannerStep p] | none => []) ++
  (match a.delegate with | some d => [delegateStep d] | none => []) ++
  (match a.act with | some x => [actStep x] | none => [])

/-- The flat-array fallback path of `extractTraceIfAny`. -/
def flatTracePart (data : Response) : Option (List AgentTraceStep) :=
  match flatTraceOf data with
  | some l => if 0 < l.length then some (l.map cleanStep) else none
  | none => none

/-- `extractTraceIfAny` of `page.tsx`: the structured
`debug.agent_trace` object is normalized into up to three steps when at
least one of its fields is present; otherwise a non-empty flat trace
array is cleaned and used. -/
def extractTraceIfAny (data : Response) : Option (List AgentTraceStep) :=
  match agentTraceOf data with
  | some a =>
    if a.planner.isSome || a.delegate.isSome || a.act.isSome then
      let steps := structuredSteps a
      if steps.length == 0 then none else some steps
    else flatTracePart data
  | none => flatTracePart data

/-- `sanitizeCard` of `page.tsx`: demo-strip the title, subtitle, body
and action labels of a card; a null card stays null. -/
def sanitizeCard (card : Option Card) : Option Card :=
  match card with
  | none => none
  | some c => some
    { title := stripDemo c.title,
      subtitle := c.subtitle.map stripDemo,
      body := c.body.map stripDemo,
      actions := c.actions.map (fun acts =>
        acts.map (fun a => { a with label := stripDemo a.label })) }

/-- `shouldHideInsightAck` of `page.tsx`. -/
def shouldHideInsightAck (msg : String) (card : Option Card) : Bool :=
  let t := jsTrim (jsToLower msg)
  if jsStartsWith t "opening " then true
  else if t == "opening." then true
  else if jsTrim (jsToLower ((Option.map Card.title card).getD "")) ==
      "insights" then true
  else false

/-- The parsed fields of a Travel card body (`parseTravel`'s result). -/
structure TravelInfo where
  destination : String
  dates : String
  flight : String
  depart : String
  ret : String
  hotel : String
  address : String
  checkin : String
  confirmation : String
  points : String
deriving DecidableEq, Repr

/-- The trimmed, non-empty lines of a Travel card body. -/
def travelLines (body : Option String) : List String :=
  ((jsSplitLines (body.getD "")).map jsTrim).filter (fun l => !(l == ""))

/-- The `get` helper of `parseTravel`: the remainder (after the label,
trimmed) of the first line starting case-insensitively with the label. -/
def travelGet (lines : List String) (pfx : String) : String :=
  match lines.find? (fun l => jsStartsWith (jsToLower l) (jsToLower pfx)) with
  | some ln => jsTrim (jsSlice ln pfx.length)
  | none => ""

/-- `parseTravel` of `page.tsx`. -/
def parseTravel (body : Option String) : TravelInfo :=
  let lines := travelLines body
  { destination := travelGet lines "Destination:",
    dates := travelGet lines "Dates:",
    flight := travelGet lines "Flight:",
    depart := travelGet lines "Depart:",
    ret := travelGet lines "Return:",
    hotel := travelGet lines "Hotel:",
    address := travelGet lines "Address:",
    checkin := travelGet lines "Check-in:",
    confirmation := travelGet lines "Confirmation:",
    points := travelGet lines "Travel points:" }

/-- The error message thrown by `callOrchestrate` on a non-success HTTP
status. -/
def orchErrMsg (status : Nat) (body : String) : String :=
  "API (" ++ Nat.repr status ++ "): " ++ body

/-- The error message thrown by `callAction` on a non-success HTTP
status. -/
def actionErrMsg (status : Nat) (body : String) : String :=
  "/action (" ++ Nat.repr status ++ "): " ++ body

/-- The demo-stripping map `refreshInsights` applies to each insight. -/
def cleanInsight (it : InsightItem) : InsightItem :=
  { id := stripDemo it.id, title := stripDemo it.title,
    subtitle := it.subtitle.map stripDemo }

/-- The insight list a `refreshInsights` response yields
(`debug.insights ?? []`, cleaned). -/
def extractInsights (data : Response) : List InsightItem :=
  match data.debug.bind Debug.insights with
  | some l => l.map cleanInsight
  | none => []

/-- Which handler generated a turn identifier. -/
inductive GenKind where
  | send
  | insightsChat
  | insightView
deriving DecidableEq, Repr

/-- The suffix each handler appends to its generated identifier. -/
def genSuffix : GenKind → String
  | GenKind.send => ""
  | GenKind.insightsChat => "-insights"
  | GenKind.insightView => "-insight"

/-- The client-side turn identifier: `t-` followed by the decimal
rendering of `Date.now()` and the handler's suffix. -/
def genId (k : GenKind) (now : Nat) : String :=
  "t-" ++ Nat.repr now ++ genSuffix k

/-- The kind of the gated in-flight request. -/
inductive PKind where
  | orch
  | act
  | insightView
  | insightsChat
deriving DecidableEq, Repr

/-- A gated in-flight request: its kind and the turn it will reconcile. -/
structure PReq where
  kind : PKind
  turnId : String
deriving DecidableEq, Repr

/-- The UI state: the turn list, the input box, the global loading flag,
the gated in-flight request when one is outstanding, and the number of
ungated `refreshInsights` calls in flight. -/
structure MState where
  turns : List Turn
  input : String
  loading : Bool
  pending : Option PReq
  insightsInflight : Nat
deriving DecidableEq, Repr

/-- The UI events: the synchronous parts of the handlers, and the arrival
of network responses. -/
inductive Ev where
  | submit (text : Option String) (now : Nat)
  | actionClick (turnId : String) (a : CardAction)
  | insightsButton (now : Nat)
  | viewInsight (insightId : String) (now : Nat)
  | logout
  | completeOk (data : Response)
  | completeErr (status : Nat) (body : String)
  | insightsDone
deriving DecidableEq, Repr

/-- The greeting turn that seeds and resets the conversation. -/
def greetingTurn : Turn :=
  { id := "t0", userText := "",
    assistantText := some ("Hi Ramesh — welcome back!! 👋\nYou have new insights available. Click Insights to review them, or choose an option below to get started."),
    card := none, charts := none, trace := none, insightsList := none }

/-- The initial UI state. -/
def initState : MState :=
  { turns := [greetingTurn], input := "", loading := false,
    pending := none, insightsInflight := 0 }

/-- The in-chat Insights card appended by `showInsightsInChat`. -/
def insightsChatTurn (tid : String) : Turn :=
  { id := tid, userText := "",
    assistantText := some "Here are your latest insights.",
    card := some { title := "Insights",
                   subtitle := some "Tap an insight to view details",
                   body := none, actions := none },
    charts := none, trace := none, insightsList := some [] }

/-- A freshly appended turn awaiting its response: the "…" placeholder
assistant text (`send` stores the demo-stripped user text, `openInsight`
an empty one). -/
def pendingTurn (tid : String) (userText : String) : Turn :=
  { id := tid, userText := userText, assistantText := some "…",
    card := none, charts := none, trace := none, insightsList := none }

/-- The success reconciliation shared by `send` and `onActionClick`:
assistant text, sanitized card, charts and trace from the response. -/
def applySuccess (data : Response) (x : Turn) : Turn :=
  let card := sanitizeCard data.card
  { x with assistantText := some (extractAssistantText data),
           card := card,
           charts := extractChartsIfAny data card,
           trace := extractTraceIfAny data }

/-- The success reconciliation of `openInsight`: like `applySuccess`, but
an "Opening …"-style acknowledgement (or an Insights card) blanks the
assistant text. -/
def applyInsightView (data : Response) (x : Turn) : Turn :=
  let card := sanitizeCard data.card
  let msg0 := extractAssistantText data
  let msg := if shouldHideInsightAck msg0 card = true then "" else msg0
  { x with assistantText := some msg,
           card := card,
           charts := extractChartsIfAny data card,
           trace := extractTraceIfAny data }

/-- The keyed update `setTurns(prev => prev.map(x => x.id === turnId ?
f(x) : x))` used by every reconciliation. -/
def updateTurns (turns : List Turn) (tid : String) (f : Turn → Turn) :
    List Turn :=
  turns.map (fun x => if x.id = tid then f x else x)

/-- The error reconciliation of `send`: error text substituted, card,
charts and trace cleared. -/
def orchErrorUpdate (status : Nat) (body : String) (x : Turn) : Turn :=
  { x with assistantText := some ("UI error: " ++ orchErrMsg status body),
           card := none, charts := none, trace := none }

/-- The error reconciliation of `onActionClick` and `openInsight`: only
the assistant text is overwritten. -/
def actionErrorUpdate (status : Nat) (body : String) (x : Turn) : Turn :=
  { x with assistantText := some ("Action error: " ++ actionErrMsg status body) }

/-- The success reconciliation of `showInsightsInChat`. -/
def insightsChatUpdate (list : List InsightItem) (x : Turn) : Turn :=
  { x with assistantText := some "Here are your latest insights.",
           insightsList := some list }

/-- One step of the UI: the synchronous prefix of each handler (guards
included), and the reconciliation run when the outstanding gated request
completes.  `logout` resets the turn list and fires an ungated
`refreshInsights`. -/
def step (st : MState) (e : Ev) : MState :=
  match e with
  | Ev.submit text now =>
    let tRaw := jsTrim (text.getD st.input)
    if tRaw = "" ∨ st.loading = true then st
    else
      { st with
        loading := true
        input := ""
        turns := st.turns ++ [pendingTurn (genId GenKind.send now) (stripDemo tRaw)]
        pending := some (PReq.mk PKind.orch (genId GenKind.send now)) }
  | Ev.actionClick tid a =>
    if a.action_name.getD "" = "" ∨ st.loading = true then st
    else
      { st with
        loading := true
        pending := some (PReq.mk PKind.act tid) }
  | Ev.insightsButton now =>
    if st.loading = true then st
    else
      { st with
        loading := true
        turns := st.turns ++ [insightsChatTurn (genId GenKind.insightsChat now)]
        pending := some (PReq.mk PKind.insightsChat (genId GenKind.insightsChat now)) }
  | Ev.viewInsight iid now =>
    if iid = "" ∨ st.loading = true then st
    else
      { st with
        loading := true
        turns := st.turns ++ [pendingTurn (genId GenKind.insightView now) ""]
        pending := some (PReq.mk PKind.insightView (genId GenKind.insightView now)) }
  | Ev.logout =>
    { st with
      turns := [greetingTurn]
      insightsInflight := st.insightsInflight + 1 }
  | Ev.completeOk data =>
    match st.pending with
    | none => st
    | some p =>
      let turns' := match p.kind with
        | PKind.orch => updateTurns st.turns p.turnId (applySuccess data)
        | PKind.act => updateTurns st.turns p.turnId (applySuccess data)
        | PKind.insightView =>
          updateTurns st.turns p.turnId (applyInsightView data)
        | PKind.insightsChat =>
          updateTurns st.turns p.turnId
            (insightsChatUpdate (extractInsights data))
      { st with turns := turns', loading := false, pending := none }
  | Ev.completeErr status body =>
    match st.pending with
    | none => st
    | some p =>
      let turns' := match p.kind with
        | PKind.orch =>
          updateTurns st.turns p.turnId (orchErrorUpdate status body)
        | PKind.act =>
          updateTurns st.turns p.turnId (actionErrorUpdate status body)
        | PKind.insightView =>
          updateTurns st.turns p.turnId (actionErrorUpdate status body)
        | PKind.insightsChat =>
          updateTurns st.turns p.turnId (insightsChatUpdate [])
      { st with turns := turns', loading := false, pending := none }
  | Ev.insightsDone =>
    { st with insightsInflight := st.insightsInflight - 1 }

/-- Run the UI from the initial state through a list of events. -/
def run (evs : List Ev) : MState :=
  evs.foldl step initState

/-- The number of network requests in flight: the gated one, if any, plus
the outstanding ungated insights refreshes. -/
def inflightCount (st : MState) : Nat :=
  (if st.pending.isSome then 1 else 0) + st.insightsInflight

/-- C1 witness fixture: a payload whose second message is the first
assistant message with non-empty trimmed content. -/
def respC1w : Response :=
  { messages := some [{ role := Role.user, content := "hi" },
                      { role := Role.assistant, content := "  Hello there  " }],
    card := none, debug := none, trace := none }

/-- C3 fixture: a card returned by a successful orchestrate call. -/
def cardC3 : Card :=
  { title := "Travel", subtitle := none, body := none,
    actions := some [{ id := none, label := "Rebook",
                       action_name := some "rebook", params := none }] }

/-- C3 fixture: the successful orchestrate response carrying the card. -/
def respC3 : Response :=
  { messages := some [{ role := Role.assistant,
                        content := "Here is your trip." }],
    card := some cardC3, debug := none, trace := none }

/-- C3 fixture: the card action clicked afterwards. -/
def actC3 : CardAction :=
  { id := none, label := "Rebook", action_name := some "rebook",
    params := none }

/-- C3 fixture: send "travel", receive a card, click its action, and have
the action request fail with HTTP 500 "boom". -/
def evsC3 : List Ev :=
  [Ev.submit (some "travel") 5, Ev.completeOk respC3,
   Ev.actionClick "t-5" actC3, Ev.completeErr 500 "boom"]

/-- C4 fixture: submit text (request one in flight), then click Logout,
whose ungated `refreshInsights` starts a second request. -/
def evsC4 : List Ev := [Ev.submit (some "hi") 5, Ev.logout]

/-- C6 fixture: a response whose assistant text is "first". -/
def respFirst : Response :=
  { messages := some [{ role := Role.assistant, content := "first" }],
    card := none, debug := none, trace := none }

/-- C6 fixture: a response whose assistant text is "second". -/
def respSecond : Response :=
  { messages := some [{ role := Role.assistant, content := "second" }],
    card := none, debug := none, trace := none }

/-- C6 fixture: two sends in the same millisecond; the first is resolved
before the second is issued. -/
def evsC6a : List Ev :=
  [Ev.submit (some "a") 5, Ev.completeOk respFirst, Ev.submit (some "b") 5]

/-- C6 fixture: the second send's response then arrives. -/
def evsC6b : List Ev := evsC6a ++ [Ev.completeOk respSecond]

/-- C8 fixture: an empty response payload. -/
def respEmpty : Response :=
  { messages := none, card := none, debug := none, trace := none }

/-- C8 fixture: two sends in the same millisecond (the first completes in
between, releasing the loading gate). -/
def evsC8 : List Ev :=
  [Ev.submit (some "a") 5, Ev.completeOk respEmpty, Ev.submit (some "b") 5]

/-- C5 fixture: an agent trace with only a planner entry (decision "D",
reason "R"). -/
def atC5 : AgentTrace :=
  { planner := some { decision := some "D", reason := some "R" },
    delegate := none, act := none }

/-- C5 fixture: a response whose `debug.agent_trace` is `atC5`. -/
def respC5 : Response :=
  { messages := none, card := none,
    debug := some { charts := none, agent_trace := some atC5,
                    trace := none, insights := none },
    trace := none }

/-- C7 witness fixture: a Travel card body. -/
def bodyC7 : Option String :=
  some "Trip booked!\nDestination: Paris\ndates: May 1 - May 5\nHotel: Le Grand "

/-- C10 witness fixture: a card with two actions. -/
def cardC10 : Card :=
  { title := "Spend Analysis (demo)", subtitle := some "demo-safe view",
    body := none,
    actions := some [{ id := some "a1", label := "View demo details",
                       action_name := some "details", params := some [("k", "v")] },
                     { id := none, label := "Close",
                       action_name := none, params := none }] }

/-- Characterization of `List.find?`: either no element satisfies the
predicate, or the result is the first element that does. -/
theorem find_spec {α : Type} (p : α → Bool) (l : List α) :
    (l.find? p = none ∧ ∀ x ∈ l, p x = false)
  ∨ (∃ i x, l.get? i = some x ∧ p x = true
      ∧ (∀ j, j < i → ∀ y, l.get? j = some y → p y = false)
      ∧ l.find? p = some x) := by
  induction l with
  | nil =>
    left
    exact ⟨rfl, by intro x hx; cases hx⟩
  | cons a l ih =>
    cases hp : p a with
    | true =>
      right
      refine ⟨0, a, rfl, hp, ?_, ?_⟩
      · intro j hj y _
        exact absurd hj (Nat.not_lt_zero j)
      · simp [List.find?_cons, hp]
    | false =>
      rcases ih with ⟨hn, hall⟩ | ⟨i, x, hget, hpx, hfirst, hfind⟩
      · left
        constructor
        · simp [List.find?_cons, hp, hn]
        · intro x hx
          rcases List.mem_cons.mp hx with h | h
          · exact h ▸ hp
          · exact hall x h
      · right
        refine ⟨i + 1, x, by simpa using hget, hpx, ?_, ?_⟩
        · intro j hj y hy
          cases j with
          | zero =>
            have : y = a := by simpa using hy.symm
            exact this ▸ hp
          | succ k =>
            exact hfirst k (Nat.lt_of_succ_lt_succ hj) y (by simpa using hy)
        · simp [List.find?_cons, hp, hfind]

/-- C1: for every response payload, the derived assistant text equals the
demo-stripped trimmed content of the first message whose role is
assistant and whose trimmed content is non-empty; when no such message
exists it equals the literal fallback "No response.". -/
theorem claim_C1_assistant_text (data : Response) :
    ((∀ m ∈ data.messages.getD [],
        ¬(m.role = Role.assistant ∧ jsTrim m.content ≠ ""))
      ∧ extractAssistantText data = "No response.")
  ∨ (∃ i m, (data.messages.getD []).get? i = some m
      ∧ m.role = Role.assistant ∧ jsTrim m.content ≠ ""
      ∧ (∀ j, j < i → ∀ m', (data.messages.getD []).get? j = some m' →
          ¬(m'.role = Role.assistant ∧ jsTrim m'.content ≠ ""))
      ∧ extractAssistantText data = stripDemo (jsTrim m.content)) := by
  have hiff : ∀ m : ChatMessage,
      showableAssistant m = true ↔
        (m.role = Role.assistant ∧ jsTrim m.content ≠ "") := by
    intro m
    simp [showableAssistant]
  rcases find_spec showableAssistant (data.messages.getD []) with
    ⟨hn, hall⟩ | ⟨i, m, hget, hpx, hfirst, hfind⟩
  · left
    constructor
    · intro m hm hconj
      have := hall m hm
      rw [← hiff m] at hconj
      simp [hconj] at this
    · simp [extractAssistantText, hn]
  · right
    refine ⟨i, m, hget, ?_, ?_, ?_, ?_⟩
    · exact ((hiff m).mp hpx).1
    · exact ((hiff m).mp hpx).2
    · intro j hj m' hm' hconj
      have := hfirst j hj m' hm'
      rw [← hiff m'] at hconj
      simp [hconj] at this
    · simp [extractAssistantText, hfind]

/-- C1 witness: the characterization evaluated on a concrete payload. -/
theorem claim_C1_witness :
    ((∀ m ∈ respC1w.messages.getD [],
        ¬(m.role = Role.assistant ∧ jsTrim m.content ≠ ""))
      ∧ extractAssistantText respC1w = "No response.")
  ∨ (∃ i m, (respC1w.messages.getD []).get? i = some m
      ∧ m.role = Role.assistant ∧ jsTrim m.content ≠ ""
      ∧ (∀ j, j < i → ∀ m', (respC1w.messages.getD []).get? j = some m' →
          ¬(m'.role = Role.assistant ∧ jsTrim m'.content ≠ ""))
      ∧ extractAssistantText respC1w = stripDemo (jsTrim m.content)) :=
  claim_C1_assistant_text respC1w

/-- C2: charts are attached (by `extractChartsIfAny`, and to the turn by
the success reconciliation) exactly when the derived card's title is the
literal "Spend Analysis" and `debug.charts` is present; otherwise the
charts field is null. -/
theorem claim_C2_charts (data : Response) (card : Option Card) (t : Turn) :
    extractChartsIfAny data card =
      (if Option.map Card.title card = some "Spend Analysis"
       then debugCharts data else none)
  ∧ (applySuccess data t).charts =
      (if Option.map Card.title (sanitizeCard data.card) = some "Spend Analysis"
       then debugCharts data else none) := by
  have h : ∀ c : Option Card, extractChartsIfAny data c =
      (if Option.map Card.title c = some "Spend Analysis"
       then debugCharts data else none) := by
    intro c
    unfold extractChartsIfAny
    by_cases h1 : Option.map Card.title c = some "Spend Analysis"
    · cases hc : debugCharts data <;> simp [h1, hc]
    · simp [h1]
  exact ⟨h card, by simpa [applySuccess] using h (sanitizeCard data.card)⟩

/-- C3 counterexample: after a send that returned a card with an action,
clicking the action and receiving HTTP 500 "boom" leaves the turn's card
in place (it is not cleared to null), contradicting the claim for the
`/action` path. -/
theorem claim_C3_counterexample :
    (run evsC3).turns.map Turn.card = [none, some cardC3]
  ∧ some cardC3 ≠ (none : Option Card) := by
  constructor
  · decide
  · decide

/-- C3 (amended): the surfaced error string contains the status code and
the raw body on both paths, and the assistant text is overwritten with it
on both paths; but only the `/orchestrate` (send) error path clears the
turn's card, charts and trace — the `/action` error path leaves them
unchanged. -/
theorem claim_C3_amended (status : Nat) (body : String) (x : Turn) :
    List.IsInfix (Nat.repr status).data (orchErrMsg status body).data
  ∧ List.IsInfix body.data (orchErrMsg status body).data
  ∧ List.IsInfix (Nat.repr status).data (actionErrMsg status body).data
  ∧ List.IsInfix body.data (actionErrMsg status body).data
  ∧ (orchErrorUpdate status body x).assistantText =
      some ("UI error: " ++ orchErrMsg status body)
  ∧ (orchErrorUpdate status body x).card = none
  ∧ (orchErrorUpdate status body x).charts = none
  ∧ (orchErrorUpdate status body x).trace = none
  ∧ (actionErrorUpdate status body x).assistantText =
      some ("Action error: " ++ actionErrMsg status body)
  ∧ (actionErrorUpdate status body x).card = x.card
  ∧ (actionErrorUpdate status body x).charts = x.charts
  ∧ (actionErrorUpdate status body x).trace = x.trace := by
  refine ⟨⟨"API (".data, ("): " ++ body).data, ?_⟩,
          ⟨("API (" ++ Nat.repr status ++ "): ").data, [], ?_⟩,
          ⟨"/action (".data, ("): " ++ body).data, ?_⟩,
          ⟨("/action (" ++ Nat.repr status ++ "): ").data, [], ?_⟩,
          rfl, rfl, rfl, rfl, rfl, rfl, rfl, rfl⟩ <;>
    simp [orchErrMsg, actionErrMsg]

/-- One step preserves the gate invariant: the loading flag is set exactly
while a gated request is outstanding. -/
theorem gate_step (st : MState) (e : Ev)
    (h : st.loading = st.pending.isSome) :
    (step st e).loading = (step st e).pending.isSome := by
  cases e with
  | submit text now =>
    by_cases hg : jsTrim (text.getD st.input) = "" ∨ st.loading = true
    · simpa [step, hg] using h
    · simp [step, hg]
  | actionClick tid a =>
    by_cases hg : a.action_name.getD "" = "" ∨ st.loading = true
    · simpa [step, hg] using h
    · simp [step, hg]
  | insightsButton now =>
    by_cases hg : st.loading = true
    · simpa [step, hg] using h
    · simp [step, hg]
  | viewInsight iid now =>
    by_cases hg : iid = "" ∨ st.loading = true
    · simpa [step, hg] using h
    · simp [step, hg]
  | logout => simpa [step] using h
  | completeOk data =>
    cases hp : st.pending with
    | none => simpa [step, hp] using h
    | some p => simp [step, hp]
  | completeErr status body =>
    cases hp : st.pending with
    | none => simpa [step, hp] using h
    | some p => simp [step, hp]
  | insightsDone => simpa [step] using h

/-- Over any event sequence, the loading flag equals the presence of a
gated in-flight request. -/
theorem run_gate (evs : List Ev) :
    (run evs).loading = (run evs).pending.isSome := by
  have key : ∀ (l : List Ev) (st : MState), st.loading = st.pending.isSome →
      (List.foldl step st l).loading = (List.foldl step st l).pending.isSome := by
    intro l
    induction l with
    | nil => intro st h; exact h
    | cons e rest ih => intro st h; exact ih (step st e) (gate_step st e h)
  exact key evs initState rfl

/-- C4 (amended): an empty or whitespace-only submission, or any
submission or click attempted while the loading flag is set, leaves the
state (turn list included) unchanged and starts no request; the loading
gate holds exactly while a gated request (send, card action, insights
button, insight view) is outstanding, so at most one gated request is in
flight at a time — but the ungated `refreshInsights` fired by logout (or
mount) can overlap an outstanding request. -/
theorem claim_C4_amended :
    (∀ st text now, (jsTrim (text.getD st.input) = "" ∨ st.loading = true) →
        step st (Ev.submit text now) = st)
  ∧ (∀ st tid a, st.loading = true → step st (Ev.actionClick tid a) = st)
  ∧ (∀ st now, st.loading = true → step st (Ev.insightsButton now) = st)
  ∧ (∀ st iid now, st.loading = true → step st (Ev.viewInsight iid now) = st)
  ∧ (∀ evs, (run evs).loading = (run evs).pending.isSome) := by
  refine ⟨?_, ?_, ?_, ?_, run_gate⟩
  · intro st text now h
    simp only [step]
    rw [if_pos h]
  · intro st tid a h
    simp only [step]
    rw [if_pos (Or.inr h)]
  · intro st now h
    simp only [step]
    rw [if_pos h]
  · intro st iid now h
    simp only [step]
    rw [if_pos (Or.inr h)]

/-- C4 witness: a whitespace-only submission on the initial state is a
no-op. -/
theorem claim_C4_witness :
    (jsTrim ((some "   ").getD initState.input) = "" ∨
      initState.loading = true)
  ∧ step initState (Ev.submit (some "   ") 7) = initState :=
  ⟨Or.inl (by decide),
   claim_C4_amended.1 initState (some "   ") 7 (Or.inl (by decide))⟩

/-- C4 counterexample: a send followed by a logout leaves two requests in
flight (the gated orchestrate call and the ungated insights refresh), so
"at most one request in flight across the whole UI" fails. -/
theorem claim_C4_counterexample : inflightCount (run evsC4) = 2 := by
  decide

/-- C5: when `debug.agent_trace` has at least one of the planner,
delegate or act fields, the derived trace is the ordered list of at most
three steps built from exactly the present fields, and it depends only on
the structured object (any flat trace array is ignored); when the
structured object is absent, the flat-array path is used, yielding the
cleaned array whenever it is non-empty.  On the concrete planner-only
payload the derived trace is the single Planner step with reasoning "R"
and decision "D". -/
theorem claim_C5_trace (data : Response) :
    (∀ a, agentTraceOf data = some a →
        (a.planner.isSome || a.delegate.isSome || a.act.isSome) = true →
          extractTraceIfAny data = some (structuredSteps a)
          ∧ (structuredSteps a).length ≤ 3
          ∧ (∀ d' : Response, agentTraceOf d' = some a →
              extractTraceIfAny d' = extractTraceIfAny data))
  ∧ (agentTraceOf data = none →
        extractTraceIfAny data = flatTracePart data
        ∧ (∀ l, flatTraceOf data = some l → 0 < l.length →
            extractTraceIfAny data = some (l.map cleanStep)))
  ∧ extractTraceIfAny respC5 =
      some [{ stage := "Planner", agent := some "Planner", tool := none,
              reasoning := some "R", decision := some "D",
              result := none }] := by
  refine ⟨?_, ?_, ?_⟩
  · intro a ha hany
    have hne : structuredSteps a ≠ [] ∧ (structuredSteps a).length ≤ 3 := by
      cases hp : a.planner <;> cases hd : a.delegate <;> cases hx : a.act <;>
        simp [structuredSteps, hp, hd, hx] at hany ⊢
    have hlen : ((structuredSteps a).length == 0) = false := by
      have := hne.1
      simp only [beq_eq_false_iff_ne, ne_eq]
      intro h0
      exact this (List.length_eq_zero.mp h0)
    refine ⟨?_, hne.2, ?_⟩
    · simp [extractTraceIfAny, ha, hany, hlen]
    · intro d' hd'
      simp [extractTraceIfAny, ha, hd', hany, hlen]
  · intro hnone
    refine ⟨by simp [extractTraceIfAny, hnone], ?_⟩
    intro l hl hlen
    simp [extractTraceIfAny, hnone, flatTracePart, hl, hlen]
  · decide

/-- C5 witness: the structured path evaluated on the planner-only
payload. -/
theorem claim_C5_witness :
    agentTraceOf respC5 = some atC5
  ∧ (atC5.planner.isSome || atC5.delegate.isSome || atC5.act.isSome) = true
  ∧ extractTraceIfAny respC5 = some (structuredSteps atC5) :=
  ⟨by decide, by decide,
   ((claim_C5_trace respC5).1 atC5 (by decide) (by decide)).1⟩

/-- C6 (amended): every step either leaves the turn list unchanged,
appends exactly one turn at the end, or maps an id-preserving update over
the list that touches exactly the turns whose identifier equals the
reconciled request's key (one turn whenever identifiers are unique) and
leaves every other turn unchanged; only logout replaces the list, with
the single greeting turn. -/
theorem claim_C6_amended (st : MState) (e : Ev) :
    (step st e).turns = st.turns
  ∨ (∃ t : Turn, (step st e).turns = st.turns ++ [t])
  ∨ (∃ (tid : String) (f : Turn → Turn), (∀ x, (f x).id = x.id)
      ∧ (step st e).turns =
          st.turns.map (fun x => if x.id = tid then f x else x))
  ∨ (e = Ev.logout ∧ (step st e).turns = [greetingTurn]) := by
  cases e with
  | submit text now =>
    by_cases hg : jsTrim (text.getD st.input) = "" ∨ st.loading = true
    · left; simp [step, hg]
    · right; left
      exact ⟨pendingTurn (genId GenKind.send now)
               (stripDemo (jsTrim (text.getD st.input))),
             by simp [step, hg]⟩
  | actionClick tid a =>
    left
    by_cases hg : a.action_name.getD "" = "" ∨ st.loading = true <;>
      simp [step, hg]
  | insightsButton now =>
    by_cases hg : st.loading = true
    · left; simp [step, hg]
    · right; left
      exact ⟨insightsChatTurn (genId GenKind.insightsChat now),
             by simp [step, hg]⟩
  | viewInsight iid now =>
    by_cases hg : iid = "" ∨ st.loading = true
    · left; simp [step, hg]
    · right; left
      exact ⟨pendingTurn (genId GenKind.insightView now) "",
             by simp [step, hg]⟩
  | logout =>
    right; right; right
    exact ⟨rfl, by simp [step]⟩
  | completeOk data =>
    cases hp : st.pending with
    | none => left; simp [step, hp]
    | some p =>
      right; right; left
      cases p with
      | mk k tid =>
        cases k with
        | orch =>
          exact ⟨tid, applySuccess data, fun x => rfl,
                 by simp [step, hp, updateTurns]⟩
        | act =>
          exact ⟨tid, applySuccess data, fun x => rfl,
                 by simp [step, hp, updateTurns]⟩
        | insightView =>
          exact ⟨tid, applyInsightView data, fun x => rfl,
                 by simp [step, hp, updateTurns]⟩
        | insightsChat =>
          exact ⟨tid, insightsChatUpdate (extractInsights data), fun x => rfl,
                 by simp [step, hp, updateTurns]⟩
  | completeErr status body =>
    cases hp : st.pending with
    | none => left; simp [step, hp]
    | some p =>
      right; right; left
      cases p with
      | mk k tid =>
        cases k with
        | orch =>
          exact ⟨tid, orchErrorUpdate status body, fun x => rfl,
                 by simp [step, hp, updateTurns]⟩
        | act =>
          exact ⟨tid, actionErrorUpdate status body, fun x => rfl,
                 by simp [step, hp, updateTurns]⟩
        | insightView =>
          exact ⟨tid, actionErrorUpdate status body, fun x => rfl,
                 by simp [step, hp, updateTurns]⟩
        | insightsChat =>
          exact ⟨tid, insightsChatUpdate [], fun x => rfl,
                 by simp [step, hp, updateTurns]⟩
  | insightsDone => left; simp [step]

/-- C6 counterexample: two sends issued in the same millisecond share the
identifier "t-5"; when the second response arrives, its reconciliation
overwrites both turns at once, so a reconciliation does not modify at
most a single turn. -/
theorem claim_C6_counterexample :
    (run evsC6a).turns.map Turn.assistantText =
      [greetingTurn.assistantText, some "first", some "…"]
  ∧ (run evsC6b).turns.map Turn.assistantText =
      [greetingTurn.assistantText, some "second", some "second"] := by
  constructor
  · decide
  · decide

/-- C7: each parsed travel field comes from its fixed label; for any
label, the extracted value is the remainder (after the label, trimmed) of
the first trimmed non-empty body line starting case-insensitively with
that label, and the empty string when no line matches. -/
theorem claim_C7_travel (body : Option String) :
    parseTravel body =
      { destination := travelGet (travelLines body) "Destination:",
        dates := travelGet (travelLines body) "Dates:",
        flight := travelGet (travelLines body) "Flight:",
        depart := travelGet (travelLines body) "Depart:",
        ret := travelGet (travelLines body) "Return:",
        hotel := travelGet (travelLines body) "Hotel:",
        address := travelGet (travelLines body) "Address:",
        checkin := travelGet (travelLines body) "Check-in:",
        confirmation := travelGet (travelLines body) "Confirmation:",
        points := travelGet (travelLines body) "Travel points:" }
  ∧ (∀ pfx : String,
      ((∀ l ∈ travelLines body,
          jsStartsWith (jsToLower l) (jsToLower pfx) = false)
        ∧ travelGet (travelLines body) pfx = "")
    ∨ (∃ i ln, (travelLines body).get? i = some ln
        ∧ jsStartsWith (jsToLower ln) (jsToLower pfx) = true
        ∧ (∀ j, j < i → ∀ ln', (travelLines body).get? j = some ln' →
            jsStartsWith (jsToLower ln') (jsToLower pfx) = false)
        ∧ travelGet (travelLines body) pfx = jsTrim (jsSlice ln pfx.length))) := by
  constructor
  · rfl
  · intro pfx
    rcases find_spec (fun l => jsStartsWith (jsToLower l) (jsToLower pfx))
        (travelLines body) with ⟨hn, hall⟩ | ⟨i, ln, hget, hpx, hfirst, hfind⟩
    · left
      exact ⟨hall, by simp [travelGet, hn]⟩
    · right
      exact ⟨i, ln, hget, hpx, hfirst, by simp [travelGet, hfind]⟩

/-- C7 witness: the characterization evaluated on a concrete travel
body (labels matched case-insensitively, missing labels empty). -/
theorem claim_C7_witness :
    parseTravel bodyC7 =
      { destination := travelGet (travelLines bodyC7) "Destination:",
        dates := travelGet (travelLines bodyC7) "Dates:",
        flight := travelGet (travelLines bodyC7) "Flight:",
        depart := travelGet (travelLines bodyC7) "Depart:",
        ret := travelGet (travelLines bodyC7) "Return:",
        hotel := travelGet (travelLines bodyC7) "Hotel:",
        address := travelGet (travelLines bodyC7) "Address:",
        checkin := travelGet (travelLines bodyC7) "Check-in:",
        confirmation := travelGet (travelLines bodyC7) "Confirmation:",
        points := travelGet (travelLines bodyC7) "Travel points:" }
  ∧ (parseTravel bodyC7).destination = "Paris"
  ∧ (parseTravel bodyC7).dates = "May 1 - May 5"
  ∧ (parseTravel bodyC7).hotel = "Le Grand"
  ∧ (parseTravel bodyC7).flight = "" :=
  ⟨(claim_C7_travel bodyC7).1, by decide, by decide, by decide, by decide⟩

/-- Digit characters produced by `Nat.digitChar` below base 10. -/
theorem digitChar_isDigit (n : Nat) (h : n < 10) :
    (Nat.digitChar n).isDigit = true := by
  interval_cases n <;> decide

/-- Every character accumulated by `Nat.toDigitsCore 10` is a decimal
digit. -/
theorem toDigitsCore_digits (fuel : Nat) :
    ∀ (n : Nat) (ds : List Char), (∀ c ∈ ds, c.isDigit = true) →
      ∀ c ∈ Nat.toDigitsCore 10 fuel n ds, c.isDigit = true := by
  induction fuel with
  | zero =>
    intro n ds hds c hc
    exact hds c (by simpa [Nat.toDigitsCore] using hc)
  | succ fuel ih =>
    intro n ds hds c hc
    have hcons : ∀ c' ∈ (Nat.digitChar (n % 10) :: ds), c'.isDigit = true := by
      intro c' hc'
      rcases List.mem_cons.mp hc' with h1 | h1
      · exact h1 ▸ digitChar_isDigit (n % 10) (Nat.mod_lt n (by decide))
      · exact hds c' h1
    by_cases hnz : n / 10 = 0
    · simp only [Nat.toDigitsCore] at hc
      rw [if_pos hnz] at hc
      exact hcons c hc
    · simp only [Nat.toDigitsCore] at hc
      rw [if_neg hnz] at hc
      exact ih (n / 10) (Nat.digitChar (n % 10) :: ds) hcons c hc

/-- Every character of the decimal rendering of a natural number is a
digit. -/
theorem repr_data_digits (n : Nat) :
    ∀ c ∈ (Nat.repr n).data, c.isDigit = true := by
  intro c hc
  have hrepr : (Nat.repr n).data = Nat.toDigitsCore 10 (n + 1) n [] := rfl
  rw [hrepr] at hc
  exact toDigitsCore_digits (n + 1) n [] (by intro c' hc'; cases hc') c hc

/-- Two digit blocks followed by tails that do not start with a digit can
only concatenate equally blockwise. -/
theorem digits_split : ∀ (l1 t1 l2 t2 : List Char),
    (∀ c ∈ l1, c.isDigit = true) → (∀ c ∈ l2, c.isDigit = true) →
    (∀ c, t1.head? = some c → c.isDigit = false) →
    (∀ c, t2.head? = some c → c.isDigit = false) →
    l1 ++ t1 = l2 ++ t2 → l1 = l2 ∧ t1 = t2 := by
  intro l1
  induction l1 with
  | nil =>
    intro t1 l2 t2 _ h2 ht1 _ heq
    cases l2 with
    | nil => exact ⟨rfl, heq⟩
    | cons b l2' =>
      exfalso
      simp only [List.nil_append] at heq
      have hb : b.isDigit = true := h2 b (List.mem_cons_self b l2')
      have hb' : b.isDigit = false := ht1 b (by rw [heq]; rfl)
      simp [hb] at hb'
  | cons a l1' ih =>
    intro t1 l2 t2 h1 h2 ht1 ht2 heq
    cases l2 with
    | nil =>
      exfalso
      simp only [List.nil_append] at heq
      have ha : a.isDigit = true := h1 a (List.mem_cons_self a l1')
      have ha' : a.isDigit = false := ht2 a (by rw [← heq]; rfl)
      simp [ha] at ha'
    | cons b l2' =>
      simp only [List.cons_append, List.cons.injEq] at heq
      obtain ⟨hab, htail⟩ := heq
      obtain ⟨h1', h2'⟩ := ih t1 l2' t2
        (fun c hc => h1 c (List.mem_cons_of_mem a hc))
        (fun c hc => h2 c (List.mem_cons_of_mem b hc)) ht1 ht2 htail
      exact ⟨by rw [hab, h1'], h2'⟩

/-- The suffix a handler appends never starts with a digit. -/
theorem genSuffix_head (k : GenKind) :
    ∀ c, ((genSuffix k).data).head? = some c → c.isDigit = false := by
  cases k with
  | send =>
    intro c hc
    have hnone : ((genSuffix GenKind.send).data).head? = none := rfl
    rw [hnone] at hc
    exact Option.noConfusion hc
  | insightsChat =>
    intro c hc
    have hc' : '-' = c := Option.some.inj hc
    rw [← hc']; decide
  | insightView =>
    intro c hc
    have hc' : '-' = c := Option.some.inj hc
    rw [← hc']; decide

/-- C8 (amended): a generated turn identifier never equals the greeting
identifier "t0", identifiers generated by different handlers never
collide, and identifiers generated by the same handler collide exactly
when the decimal renderings of their timestamps coincide — so two turns
created by the same handler in the same millisecond do reuse an
identifier, but otherwise client-generated identifiers are fresh. -/
theorem claim_C8_amended (k1 k2 : GenKind) (n m : Nat) :
    (genId k1 n = genId k2 m → k1 = k2 ∧ Nat.repr n = Nat.repr m)
  ∧ genId k1 n ≠ "t0" := by
  constructor
  · intro h
    have hd : ("t-".data ++ (Nat.repr n).data) ++ (genSuffix k1).data =
        ("t-".data ++ (Nat.repr m).data) ++ (genSuffix k2).data := by
      have := congrArg String.data h
      simpa [genId, String.data_append] using this
    rw [List.append_assoc, List.append_assoc] at hd
    have hd' := List.append_cancel_left hd
    obtain ⟨hrepr, hsfx⟩ := digits_split (Nat.repr n).data (genSuffix k1).data
      (Nat.repr m).data (genSuffix k2).data (repr_data_digits n)
      (repr_data_digits m) (genSuffix_head k1) (genSuffix_head k2) hd'
    constructor
    · cases k1 <;> cases k2 <;> first | rfl | exact absurd hsfx (by decide)
    · exact String.ext hrepr
  · intro h
    have hd := congrArg String.data h
    simp only [genId, String.data_append] at hd
    have h1 := congrArg (fun l => l.get? 1) hd
    simp at h1

/-- C8 witness: the amended characterization applied at two concrete
send-handler timestamps. -/
theorem claim_C8_witness :
    (GenKind.send = GenKind.send ∧ Nat.repr 5 = Nat.repr 5)
  ∧ genId GenKind.send 5 ≠ "t0" :=
  ⟨(claim_C8_amended GenKind.send GenKind.send 5 5).1 rfl,
   (claim_C8_amended GenKind.send GenKind.send 5 5).2⟩

/-- C8 counterexample: two sends in the same millisecond both generate
the identifier "t-5", so the identifier created by the second send
already occurs in the turn list, and ids are reused within one session. -/
theorem claim_C8_counterexample :
    (run evsC8).turns.map Turn.id = ["t0", "t-5", "t-5"]
  ∧ ¬ ((run evsC8).turns.map Turn.id).Nodup := by
  constructor
  · decide
  · decide

/-- C9: on an insight-view turn, the extracted assistant text is replaced
by the empty string exactly when it starts (lowercased, trimmed) with
"opening ", or equals "opening.", or the returned card's title is
"insights" up to case and surrounding space; otherwise the extracted
text is kept as-is (and the card itself is kept either way). -/
theorem claim_C9_insight_ack :
    (∀ msg card, shouldHideInsightAck msg card = true ↔
      (jsStartsWith (jsTrim (jsToLower msg)) "opening " = true
        ∨ jsTrim (jsToLower msg) = "opening."
        ∨ jsTrim (jsToLower ((Option.map Card.title card).getD "")) =
            "insights"))
  ∧ (∀ data x, (applyInsightView data x).assistantText =
      some (if shouldHideInsightAck (extractAssistantText data)
                (sanitizeCard data.card) = true
            then "" else extractAssistantText data))
  ∧ (∀ data x, (applyInsightView data x).card = sanitizeCard data.card) := by
  refine ⟨?_, fun data x => rfl, fun data x => rfl⟩
  intro msg card
  by_cases h1 : jsStartsWith (jsTrim (jsToLower msg)) "opening " = true <;>
  by_cases h2 : jsTrim (jsToLower msg) = "opening." <;>
  by_cases h3 : jsTrim (jsToLower ((Option.map Card.title card).getD "")) =
      "insights" <;>
    simp [shouldHideInsightAck, h1, h2, h3]

/-- C10: the card sanitizer maps null to null and otherwise preserves the
presence, number and order of actions, returning every action's id,
action_name and params unchanged (only title, subtitle, body and labels
are rewritten). -/
theorem claim_C10_sanitize_frame :
    sanitizeCard none = none
  ∧ (∀ c c', sanitizeCard (some c) = some c' →
      ((c.actions = none → c'.actions = none)
       ∧ ∀ acts, c.actions = some acts → ∃ acts', c'.actions = some acts'
           ∧ acts'.length = acts.length
           ∧ ∀ i, ((acts'.get? i).map CardAction.id =
                     (acts.get? i).map CardAction.id
               ∧ (acts'.get? i).map CardAction.action_name =
                     (acts.get? i).map CardAction.action_name
               ∧ (acts'.get? i).map CardAction.params =
                     (acts.get? i).map CardAction.params))) := by
  refine ⟨rfl, ?_⟩
  intro c c' h
  have hc : c' =
      { title := stripDemo c.title,
        subtitle := c.subtitle.map stripDemo,
        body := c.body.map stripDemo,
        actions := c.actions.map (fun acts =>
          acts.map (fun a => { a with label := stripDemo a.label })) } :=
    (Option.some.inj h).symm
  subst hc
  constructor
  · intro hnone
    simp [hnone]
  · intro acts hacts
    refine ⟨acts.map (fun a => { a with label := stripDemo a.label }),
            by simp [hacts], by simp, ?_⟩
    intro i
    refine ⟨?_, ?_, ?_⟩ <;>
      · rw [List.get?_map]
        cases acts.get? i <;> simp

/-- C10 witness: sanitizing a concrete card rewrites its title, subtitle
and a label but returns the action frame (ids, action names, params)
unchanged. -/
theorem claim_C10_witness :
    ((cardC10.actions = none →
        (Card.mk "Spend Analysis" (some "view") none
          (some [CardAction.mk (some "a1") "View details" (some "details")
                   (some [("k", "v")]),
                 CardAction.mk none "Close" none none])).actions = none)
     ∧ ∀ acts, cardC10.actions = some acts → ∃ acts',
         (Card.mk "Spend Analysis" (some "view") none
           (some [CardAction.mk (some "a1") "View details" (some "details")
                    (some [("k", "v")]),
                  CardAction.mk none "Close" none none])).actions = some acts'
         ∧ acts'.length = acts.length
         ∧ ∀ i, ((acts'.get? i).map CardAction.id =
                   (acts.get? i).map CardAction.id
             ∧ (acts'.get? i).map CardAction.action_name =
                   (acts.get? i).map CardAction.action_name
             ∧ (acts'.get? i).map CardAction.params =
                   (acts.get? i).map CardAction.params)) :=
  claim_C10_sanitize_frame.2 cardC10
    (Card.mk "Spend Analysis" (some "view") none
      (some [CardAction.mk (some "a1") "View details" (some "details")
               (some [("k", "v")]),
             CardAction.mk none "Close" none none]))
    (by decide)
